import Mathlib

/-!
# memdisk: a block device backed by local memory (blk3.c)

A shallow embedding of the two functions of `blk3.c` that carry logic,
`md_getgeo` and `fool_make_request`, together with the state they work on.

Modelling conventions
* Bytes, sizes, sector numbers and lengths are natural numbers; the 64-bit
  arithmetic of the range test wraps explicitly (`% U64`).
* Memory reached through `md.data` is a function from the byte offset past
  `md.data` to the byte stored there.  The Store is the first `md.size` bytes;
  larger offsets are whatever lies behind the `vmalloc` area, so a copy that
  runs past the end of the Store is visible in the model.  The cursor `disk_mem`
  is such an offset: it starts at the 64-bit value of `bi_sector << 9` and
  advances by each segment length.
* Every `bio_vec` carries the memory of its own mapped page (`kmap`), indexed by
  the byte offset past the mapping address; pages do not alias the disk memory.
* `bio_endio` is recorded: an outcome lists the status of every call in order.
  The `(cursor, length)` pair of every `memcpy` against the disk memory is
  recorded the same way.
-/

namespace Memdisk

/-! ## Constants -/

/-- Number of values of a 64-bit unsigned integer (`sector_t`, `unsigned long long`). -/
def U64 : Nat := 2 ^ 64

/-- Errno `EIO` of the kernel headers (asm-generic/errno-base.h). -/
def EIO : Int := 5

/-- Data direction `READ` of the kernel headers (linux/fs.h).  The values of
`READ`, `WRITE` and `READA` are those of the 2.6 kernels the module is written for
(a `make_request_fn` that returns `int`); the proofs use only that they differ. -/
def READ : Nat := 0

/-- Data direction `WRITE` of the kernel headers (linux/fs.h). -/
def WRITE : Nat := 1

/-- Read-ahead direction `READA` of the kernel headers (linux/fs.h). -/
def READA : Nat := 2

/-! ## State -/

/-- The `struct md_device` of blk3.c (lines 18-23): `size` in bytes and the memory
reached through the pointer `data`.  The lock and the gendisk play no part in the
two functions embedded here. -/
structure md_device where
  size : Nat
  data : Nat → Nat

/-- The file-scope variables of blk3.c that the embedded functions read: the device
`md` and the integers `blocksize` and `blocks`. -/
structure module_state where
  md : md_device
  blocksize : Nat
  blocks : Nat

/-- The macro `MD_MAX_SIZE` (line 31): `blocksize * blocks`. -/
def MD_MAX_SIZE (st : module_state) : Nat := st.blocksize * st.blocks

/-- The call `memset(mem + d, c, n)`. -/
def memset (mem : Nat → Nat) (d c n : Nat) : Nat → Nat :=
  fun a => if d ≤ a ∧ a < d + n then c else mem a

/-- The call `memcpy(dst + d, src + s, n)` between two memories: the resulting
contents of the destination memory. -/
def memcpy (dst : Nat → Nat) (d : Nat) (src : Nat → Nat) (s n : Nat) : Nat → Nat :=
  fun a => if d ≤ a ∧ a < d + n then src (s + (a - d)) else dst a

/-- The part of `md_init` (lines 121-137) that sets up the state read by the request
path, on its success path: 512-byte blocks, 16 * 1024 of them, and the freshly
allocated memory `vmalloc_mem` with its first 512 bytes cleared. -/
def md_init (vmalloc_mem : Nat → Nat) : module_state :=
  let blocksize := 512
  let blocks := 16 * 1024
  { md := { size := blocks * blocksize, data := memset vmalloc_mem 0 0 512 },
    blocksize := blocksize,
    blocks := blocks }

/-! ## Geometry -/

/-- The `struct hd_geometry` filled by `md_getgeo`.  The structure is declared in
the kernel headers (linux/hdreg.h), not in blk3.c: `heads` and `sectors` are
`unsigned char`, `cylinders` is `unsigned short` and `start` is `unsigned long`. -/
structure hd_geometry where
  heads : Nat
  sectors : Nat
  cylinders : Nat
  start : Nat
deriving DecidableEq, Repr

/-- The function `md_getgeo` (lines 38-52).  `private_data` is the device pointer
found behind `bdev->bd_disk->private_data` (`none` for `NULL`); the result is the
return value and the geometry record after the call.  Each assignment stores into
a field of 8 or 16 bits, so the value is kept modulo 2^8 or 2^16. -/
def md_getgeo (private_data : Option md_device) (hdgeo : hd_geometry) : Int × hd_geometry :=
  match private_data with
  | none => (-1, hdgeo)
  | some md =>
    let sectors := md.size >>> 9
    (0, { hdgeo with
          cylinders := (sectors / 4 / 16) % 2 ^ 16,
          heads := 4 % 2 ^ 8,
          sectors := 16 % 2 ^ 8 })

/-! ## Descriptors -/

/-- One `struct bio_vec`: the memory of the mapped page, the offset of the segment
inside it and the segment length. -/
structure bio_vec where
  bv_page : Nat → Nat
  bv_offset : Nat
  bv_len : Nat

/-- The fields of `struct bio` that `fool_make_request` reads. -/
structure bio where
  bi_sector : Nat
  bi_rw : Nat
  bi_size : Nat
  bi_idx : Nat
  bi_vcnt : Nat
  bi_io_vec : List bio_vec

/-- The kernel macro `bio_rw(bio)`, `bi_rw & (RW_MASK | RWA_MASK)`: the two low bits
of `bi_rw` (write and read-ahead).  The value 3 is none of `READ`, `WRITE`, `READA`. -/
def bio_rw (b : bio) : Nat := b.bi_rw % 4

/-- The segments the loop of line 79 walks through: entries `bi_idx` up to
`bi_vcnt` (excluded) of `bi_io_vec`. -/
def bio_segments (b : bio) : List bio_vec := (b.bi_io_vec.take b.bi_vcnt).drop b.bi_idx

/-- What one call of `fool_make_request` leaves behind: the disk memory, the
segments it walked through (with their pages), the status of every `bio_endio`
call in order, and the `(cursor, length)` of every `memcpy` against the disk
memory in order. -/
structure outcome where
  data : Nat → Nat
  io_vec : List bio_vec
  endio : List Int
  accesses : List (Nat × Nat)

/-- The test of line 70, `(bio->bi_sector << 9) + bio->bi_size > MD_MAX_SIZE`, in
64-bit unsigned arithmetic. -/
def bad_request (st : module_state) (b : bio) : Bool :=
  decide (((b.bi_sector <<< 9) % U64 + b.bi_size) % U64 > MD_MAX_SIZE st)

/-- The loop of lines 79-115 followed by lines 117-118, for the direction `rw`, the
remaining segments, the cursor `disk_mem` and the disk memory.  The `default`
branch calls `bio_endio(bio, -EIO)` and returns at once; when the segments run out
`bio_endio(bio, 0)` is called. -/
def segment_loop (rw : Nat) : List bio_vec → Nat → (Nat → Nat) → outcome
  | [], _, data => { data := data, io_vec := [], endio := [0], accesses := [] }
  | bv :: rest, disk_mem, data =>
    let offset := bv.bv_offset
    let len := bv.bv_len
    if rw = WRITE then
      let r := segment_loop rw rest (disk_mem + len) (memcpy data disk_mem bv.bv_page offset len)
      { r with io_vec := bv :: r.io_vec, accesses := (disk_mem, len) :: r.accesses }
    else if rw = READ ∨ rw = READA then
      let r := segment_loop rw rest (disk_mem + len) data
      { r with
        io_vec := { bv with bv_page := memcpy bv.bv_page offset data disk_mem len } :: r.io_vec,
        accesses := (disk_mem, len) :: r.accesses }
    else
      { data := data, io_vec := bv :: rest, endio := [- EIO], accesses := [] }

/-- The function `fool_make_request` (lines 63-119).  A request that fails the
test of line 70 gets `bio_endio(bio, -EIO)`; there is no `return` in that branch,
so the function goes on to line 76 in either case. -/
def fool_make_request (st : module_state) (b : bio) : outcome :=
  let early : List Int := if bad_request st b then [- EIO] else []
  let disk_mem := (b.bi_sector <<< 9) % U64
  let r := segment_loop (bio_rw b) (bio_segments b) disk_mem st.md.data
  { r with endio := early ++ r.endio }

/-! ## Reading bytes back -/

/-- The `n` bytes of a memory from offset `p` on. -/
def mem_bytes (mem : Nat → Nat) (p n : Nat) : List Nat :=
  (List.range n).map (fun k => mem (p + k))

/-- The bytes of one segment: `bv_len` bytes of its page from `bv_offset` on. -/
def seg_bytes (bv : bio_vec) : List Nat := mem_bytes bv.bv_page bv.bv_offset bv.bv_len

/-- The bytes of a list of segments, in sequence order. -/
def bio_bytes : List bio_vec → List Nat
  | [] => []
  | bv :: rest => seg_bytes bv ++ bio_bytes rest

/-- The sum of the segment lengths. -/
def seg_total : List bio_vec → Nat
  | [] => 0
  | bv :: rest => bv.bv_len + seg_total rest

/-- Byte `k` of the concatenated segments (0 past their end). -/
def bio_byte : List bio_vec → Nat → Nat
  | [], _ => 0
  | bv :: rest, k => if k < bv.bv_len then bv.bv_page (bv.bv_offset + k) else bio_byte rest (k - bv.bv_len)

/-- The single segment that carries the concatenated bytes of `segs`. -/
def single_segment (segs : List bio_vec) : bio_vec :=
  { bv_page := bio_byte segs, bv_offset := 0, bv_len := seg_total segs }

/-- The request `b` with its segments replaced by the single segment that carries
their concatenated bytes. -/
def as_single_segment (b : bio) : bio :=
  { b with bi_idx := 0, bi_vcnt := 1, bi_io_vec := [single_segment (bio_segments b)] }

/-- The module state once a request has run: the disk memory is the one the
request left behind. -/
def after_request (st : module_state) (r : outcome) : module_state :=
  { st with md := { st.md with data := r.data } }

/-! ## Concrete devices and descriptors -/

/-- The device as `md_init` builds it over zeroed memory: 8,388,608 bytes. -/
def dev0 : module_state := md_init (fun _ => 0)

/-- A page filled with the byte 255. -/
def page_ff : Nat → Nat := fun _ => 255

/-- A write of 1,024 bytes at sector 16,383: the request crosses the end of the
8,388,608-byte device. -/
def bio_cross_end_write : bio :=
  { bi_sector := 16383, bi_rw := WRITE, bi_size := 1024, bi_idx := 0, bi_vcnt := 1,
    bi_io_vec := [{ bv_page := page_ff, bv_offset := 0, bv_len := 1024 }] }

/-- A page of zero bytes. -/
def page_zero : Nat → Nat := fun _ => 0

/-- A read of 512 bytes at sector 0 into one segment. -/
def bio_read_sector0 : bio :=
  { bi_sector := 0, bi_rw := READ, bi_size := 512, bi_idx := 0, bi_vcnt := 1,
    bi_io_vec := [{ bv_page := page_zero, bv_offset := 0, bv_len := 512 }] }

/-- A page whose bytes are 1, 2, ..., 255, 1, 2, ...: no byte is zero. -/
def page_count : Nat → Nat := fun k => k % 255 + 1

/-- The device as `md_init` builds it over memory that holds the bytes of
`page_count`: the first 512 bytes are cleared, the bytes behind them are not. -/
def dev_count : module_state := md_init page_count

/-- A read of 1,024 bytes at sector 1 into two segments: 512 bytes to offset 0 of a
page of zeros, then 512 bytes to offset 100 of a page of bytes 255. -/
def bio_read_two_segments : bio :=
  { bi_sector := 1, bi_rw := READ, bi_size := 1024, bi_idx := 0, bi_vcnt := 2,
    bi_io_vec := [{ bv_page := page_zero, bv_offset := 0, bv_len := 512 },
                  { bv_page := page_ff, bv_offset := 100, bv_len := 512 }] }

/-- A device of 2^31 bytes. -/
def md_2gib : md_device := { size := 2 ^ 31, data := fun _ => 0 }

/-- A geometry record with every field 0. -/
def hdgeo_blank : hd_geometry := { heads := 0, sectors := 0, cylinders := 0, start := 0 }

/-- A write of 512 bytes at sector 0 from one segment. -/
def bio_write_sector0 : bio :=
  { bi_sector := 0, bi_rw := WRITE, bi_size := 512, bi_idx := 0, bi_vcnt := 1,
    bi_io_vec := [{ bv_page := page_count, bv_offset := 0, bv_len := 512 }] }

/-- A page whose bytes are all 7. -/
def page_seven : Nat → Nat := fun _ => 7

/-- A write of 1,536 bytes at sector 2 from two segments: 512 bytes taken at
offset 0 of one page, then 1,024 bytes taken at offset 512 of another. -/
def bio_write_two_segments : bio :=
  { bi_sector := 2, bi_rw := WRITE, bi_size := 1536, bi_idx := 0, bi_vcnt := 2,
    bi_io_vec := [{ bv_page := page_count, bv_offset := 0, bv_len := 512 },
                  { bv_page := page_seven, bv_offset := 512, bv_len := 1024 }] }

/-- A request of direction 3 (neither READ, READA nor WRITE) at sector 0 with no
segment and no byte to move. -/
def bio_unsupported_empty : bio :=
  { bi_sector := 0, bi_rw := 3, bi_size := 0, bi_idx := 0, bi_vcnt := 0, bi_io_vec := [] }

/-- A request of direction 3 at sector 0 with one 512-byte segment. -/
def bio_unsupported_one : bio :=
  { bi_sector := 0, bi_rw := 3, bi_size := 512, bi_idx := 0, bi_vcnt := 1,
    bi_io_vec := [{ bv_page := page_ff, bv_offset := 0, bv_len := 512 }] }

/-- A device of zero capacity: 512-byte blocks, none of them. -/
def dev_zero : module_state :=
  { md := { size := 0, data := fun _ => 0 }, blocksize := 512, blocks := 0 }

/-- A read at sector 0 with no segment and no byte to move. -/
def bio_empty_read : bio :=
  { bi_sector := 0, bi_rw := READ, bi_size := 0, bi_idx := 0, bi_vcnt := 0, bi_io_vec := [] }

/-- A read of 512 bytes at sector 0 into one segment, for the device of capacity 0. -/
def bio_read_one : bio :=
  { bi_sector := 0, bi_rw := READ, bi_size := 512, bi_idx := 0, bi_vcnt := 1,
    bi_io_vec := [{ bv_page := page_zero, bv_offset := 0, bv_len := 512 }] }

/-- A read of 1,024 bytes at sector 16,383: the request crosses the end of the
8,388,608-byte device. -/
def bio_cross_end_read : bio :=
  { bi_sector := 16383, bi_rw := READ, bi_size := 1024, bi_idx := 0, bi_vcnt := 1,
    bi_io_vec := [{ bv_page := page_zero, bv_offset := 0, bv_len := 1024 }] }

/-- A write of 512 bytes at sector 2^55. -/
def bio_wrap_write : bio :=
  { bi_sector := 2 ^ 55, bi_rw := WRITE, bi_size := 512, bi_idx := 0, bi_vcnt := 1,
    bi_io_vec := [{ bv_page := page_ff, bv_offset := 0, bv_len := 512 }] }

/-! ## Bytes of memories and segments -/

theorem mem_bytes_length (mem : Nat → Nat) (p n : Nat) : (mem_bytes mem p n).length = n := by
  simp [mem_bytes]

theorem mem_bytes_add (mem : Nat → Nat) (p n m : Nat) :
    mem_bytes mem p (n + m) = mem_bytes mem p n ++ mem_bytes mem (p + n) m := by
  simp [mem_bytes, List.range_add, List.map_map, Function.comp, Nat.add_assoc]

theorem mem_bytes_congr {m1 m2 : Nat → Nat} {p q n : Nat}
    (h : ∀ k, k < n → m1 (p + k) = m2 (q + k)) : mem_bytes m1 p n = mem_bytes m2 q n := by
  unfold mem_bytes
  apply List.map_congr_left
  intro k hk
  exact h k (List.mem_range.mp hk)

theorem memcpy_inside (dst : Nat → Nat) (d : Nat) (src : Nat → Nat) (s n k : Nat) (hk : k < n) :
    memcpy dst d src s n (d + k) = src (s + k) := by
  have h1 : d ≤ d + k ∧ d + k < d + n := ⟨by omega, by omega⟩
  simp [memcpy, h1]

theorem memcpy_outside (dst : Nat → Nat) (d : Nat) (src : Nat → Nat) (s n a : Nat)
    (ha : a < d ∨ d + n ≤ a) : memcpy dst d src s n a = dst a := by
  have h1 : ¬ (d ≤ a ∧ a < d + n) := by omega
  simp [memcpy, h1]

theorem mem_bytes_memcpy (dst : Nat → Nat) (d : Nat) (src : Nat → Nat) (s n : Nat) :
    mem_bytes (memcpy dst d src s n) d n = mem_bytes src s n :=
  mem_bytes_congr (fun k hk => memcpy_inside dst d src s n k hk)

theorem bio_bytes_length (segs : List bio_vec) : (bio_bytes segs).length = seg_total segs := by
  induction segs with
  | nil => rfl
  | cons bv rest ih => simp [bio_bytes, seg_total, seg_bytes, mem_bytes_length, ih]

theorem mem_bytes_bio_byte (segs : List bio_vec) :
    mem_bytes (bio_byte segs) 0 (seg_total segs) = bio_bytes segs := by
  induction segs with
  | nil => rfl
  | cons bv rest ih =>
    rw [seg_total, mem_bytes_add, bio_bytes, ← ih]
    congr 1
    · apply mem_bytes_congr
      intro k hk
      simp [bio_byte, hk]
    · apply mem_bytes_congr
      intro k _
      simp [bio_byte]

/-! ## The loop, direction by direction -/

theorem segment_loop_write_data (segs : List bio_vec) (c : Nat) (data : Nat → Nat) :
    (segment_loop WRITE segs c data).data = memcpy data c (bio_byte segs) 0 (seg_total segs) := by
  induction segs generalizing c data with
  | nil =>
    funext a
    have h1 : ¬ (c ≤ a ∧ a < c + 0) := by omega
    simp only [segment_loop, memcpy, seg_total, h1, if_false]
  | cons bv rest ih =>
    simp only [segment_loop, if_true, ih]
    funext a
    simp only [memcpy, seg_total, bio_byte]
    by_cases h1 : c + bv.bv_len ≤ a ∧ a < c + bv.bv_len + seg_total rest
    · have h2 : c ≤ a ∧ a < c + (bv.bv_len + seg_total rest) := by omega
      have h3 : ¬ (0 + (a - c) < bv.bv_len) := by omega
      have h4 : 0 + (a - (c + bv.bv_len)) = 0 + (a - c) - bv.bv_len := by omega
      simp only [h1, h2, h3, h4, and_self, if_true, if_false]
    · by_cases h2 : c ≤ a ∧ a < c + bv.bv_len
      · have h3 : c ≤ a ∧ a < c + (bv.bv_len + seg_total rest) := by omega
        have h4 : 0 + (a - c) < bv.bv_len := by omega
        have h5 : bv.bv_offset + (0 + (a - c)) = bv.bv_offset + (a - c) := by omega
        simp only [h1, h2, h3, h4, h5, and_self, if_true, if_false]
      · have h3 : ¬ (c ≤ a ∧ a < c + (bv.bv_len + seg_total rest)) := by omega
        simp only [h1, h2, h3, if_false]

theorem segment_loop_write_rest (segs : List bio_vec) (c : Nat) (data : Nat → Nat) :
    (segment_loop WRITE segs c data).io_vec = segs ∧
    (segment_loop WRITE segs c data).endio = [0] := by
  induction segs generalizing c data with
  | nil => simp [segment_loop]
  | cons bv rest ih => simp [segment_loop, ih]

theorem segment_loop_read (rw : Nat) (hrw : rw = READ ∨ rw = READA) (segs : List bio_vec)
    (c : Nat) (data : Nat → Nat) :
    (segment_loop rw segs c data).data = data ∧
    (segment_loop rw segs c data).endio = [0] ∧
    bio_bytes (segment_loop rw segs c data).io_vec = mem_bytes data c (seg_total segs) ∧
    (segment_loop rw segs c data).io_vec.map (fun bv => (bv.bv_offset, bv.bv_len)) =
      segs.map (fun bv => (bv.bv_offset, bv.bv_len)) := by
  have hw : rw ≠ WRITE := by
    rcases hrw with h | h <;> simp [h, READ, READA, WRITE]
  induction segs generalizing c with
  | nil => simp [segment_loop, bio_bytes, seg_total, mem_bytes]
  | cons bv rest ih =>
    obtain ⟨ih1, ih2, ih3, ih4⟩ := ih (c + bv.bv_len)
    simp only [segment_loop, hw, hrw, if_true, if_false, ih1, ih2, bio_bytes, ih3, seg_total,
      mem_bytes_add, seg_bytes, mem_bytes_memcpy, List.map_cons, ih4, and_self]

theorem segment_loop_reada (segs : List bio_vec) (c : Nat) (data : Nat → Nat) :
    segment_loop READA segs c data = segment_loop READ segs c data := by
  induction segs generalizing c with
  | nil => rfl
  | cons bv rest ih =>
    have h1 : READA ≠ WRITE := by decide
    have h2 : READ ≠ WRITE := by decide
    simp only [segment_loop, h1, h2, if_false, true_or, or_true, if_true, ih]

theorem segment_loop_default (rw : Nat) (h1 : rw ≠ READ) (h2 : rw ≠ READA) (h3 : rw ≠ WRITE)
    (segs : List bio_vec) (c : Nat) (data : Nat → Nat) :
    (segment_loop rw segs c data).data = data ∧
    (segment_loop rw segs c data).io_vec = segs ∧
    (segment_loop rw segs c data).accesses = [] ∧
    (segment_loop rw segs c data).endio = (if segs.isEmpty then [0] else [- EIO]) := by
  cases segs with
  | nil => simp [segment_loop]
  | cons bv rest => simp [segment_loop, h1, h2, h3]

/-! ## The range test -/

theorem bad_request_false_of_in_range (st : module_state) (b : bio)
    (hin : b.bi_sector * 512 + b.bi_size ≤ MD_MAX_SIZE st) : bad_request st b = false := by
  simp only [bad_request, Nat.shiftLeft_eq, decide_eq_false_iff_not, U64]
  norm_num
  omega

theorem cursor_of_in_range (st : module_state) (b : bio)
    (hin : b.bi_sector * 512 + b.bi_size ≤ MD_MAX_SIZE st) (hcap : MD_MAX_SIZE st < U64) :
    (b.bi_sector <<< 9) % U64 = b.bi_sector * 512 := by
  simp only [Nat.shiftLeft_eq, U64] at *
  norm_num at *
  omega

theorem bad_request_iff_of_no_wrap (st : module_state) (b : bio)
    (h : b.bi_sector * 512 + b.bi_size < U64) :
    bad_request st b = true ↔ b.bi_sector * 512 + b.bi_size > MD_MAX_SIZE st := by
  simp only [bad_request, Nat.shiftLeft_eq, decide_eq_true_eq, U64] at *
  norm_num at *
  omega

theorem bio_byte_append (pre l : List bio_vec) (k : Nat) :
    bio_byte (pre ++ l) (seg_total pre + k) = bio_byte l k := by
  induction pre with
  | nil => simp [seg_total]
  | cons bv rest ih =>
    have h1 : ¬ (bv.bv_len + seg_total rest + k < bv.bv_len) := by omega
    have h2 : bv.bv_len + seg_total rest + k - bv.bv_len = seg_total rest + k := by omega
    show bio_byte (bv :: (rest ++ l)) (seg_total (bv :: rest) + k) = bio_byte l k
    simp only [bio_byte, seg_total, h1, h2, if_false, ih]

theorem seg_total_append (pre l : List bio_vec) :
    seg_total (pre ++ l) = seg_total pre + seg_total l := by
  induction pre with
  | nil => simp [seg_total]
  | cons bv rest ih => simp [seg_total, ih, Nat.add_assoc]

/-! ## The request function, direction by direction -/

theorem fool_make_request_write (st : module_state) (b : bio) (hw : bio_rw b = WRITE) :
    (fool_make_request st b).data =
      memcpy st.md.data ((b.bi_sector <<< 9) % U64) (bio_byte (bio_segments b)) 0
        (seg_total (bio_segments b)) ∧
    (fool_make_request st b).io_vec = bio_segments b ∧
    (fool_make_request st b).endio = (if bad_request st b then [- EIO] else []) ++ [0] := by
  obtain ⟨w1, w2⟩ :=
    segment_loop_write_rest (bio_segments b) ((b.bi_sector <<< 9) % U64) st.md.data
  have w3 := segment_loop_write_data (bio_segments b) ((b.bi_sector <<< 9) % U64) st.md.data
  simp only [fool_make_request, hw, w1, w2, w3, and_self]

theorem fool_make_request_read (st : module_state) (b : bio)
    (hr : bio_rw b = READ ∨ bio_rw b = READA) :
    (fool_make_request st b).data = st.md.data ∧
    (fool_make_request st b).endio = (if bad_request st b then [- EIO] else []) ++ [0] ∧
    bio_bytes (fool_make_request st b).io_vec =
      mem_bytes st.md.data ((b.bi_sector <<< 9) % U64) (seg_total (bio_segments b)) ∧
    (fool_make_request st b).io_vec.map (fun bv => (bv.bv_offset, bv.bv_len)) =
      (bio_segments b).map (fun bv => (bv.bv_offset, bv.bv_len)) := by
  obtain ⟨r1, r2, r3, r4⟩ :=
    segment_loop_read (bio_rw b) hr (bio_segments b) ((b.bi_sector <<< 9) % U64) st.md.data
  simp only [fool_make_request, r1, r2, r3, r4, and_self]

/-! ## Geometry (C4) -/

/-- C4, as stated, fails: for a capacity of 2^31 bytes the formula gives
`2^31 / 512 / 4 / 16 = 65536` cylinders, while `md_getgeo` stores the count into the
16-bit field `cylinders` and reports 0. -/
theorem md_getgeo_cylinders_wrap :
    md_2gib.size / 512 / 4 / 16 = 65536 ∧
    (md_getgeo (some md_2gib) hdgeo_blank).1 = 0 ∧
    (md_getgeo (some md_2gib) hdgeo_blank).2.cylinders = 0 := by
  decide

/-- C4, amended: for every capacity `md.size` below 2^31, `md_getgeo` returns 0 and
reports 4 heads, 16 sectors per track and `size / 512 / 4 / 16` cylinders (integer
division); a capacity of 8,388,608 bytes gives 256 cylinders and a capacity of 0
gives 0.  For any capacity the count is reported modulo 2^16. -/
theorem md_getgeo_formula (md : md_device) (hdgeo : hd_geometry) (h : md.size < 2 ^ 31) :
    (md_getgeo (some md) hdgeo).1 = 0 ∧
    (md_getgeo (some md) hdgeo).2.heads = 4 ∧
    (md_getgeo (some md) hdgeo).2.sectors = 16 ∧
    (md_getgeo (some md) hdgeo).2.cylinders = md.size / 512 / 4 / 16 ∧
    (md_getgeo (some { md with size := 8388608 }) hdgeo).2.cylinders = 256 ∧
    (md_getgeo (some { md with size := 0 }) hdgeo).2.cylinders = 0 ∧
    (∀ md2 : md_device,
      (md_getgeo (some md2) hdgeo).2.cylinders = (md2.size / 512 / 4 / 16) % 65536) := by
  refine ⟨rfl, rfl, rfl, ?_, ?_, ?_, ?_⟩
  · simp only [md_getgeo, Nat.shiftRight_eq_div_pow]
    norm_num at *
    omega
  · simp [md_getgeo, Nat.shiftRight_eq_div_pow]
  · simp [md_getgeo, Nat.shiftRight_eq_div_pow]
  · intro md2
    simp [md_getgeo, Nat.shiftRight_eq_div_pow]

/-- Witness of C4 (amended): the 8,388,608-byte device has 256 cylinders. -/
theorem md_getgeo_formula_witness :
    dev0.md.size = 8388608 ∧
    dev0.md.size < 2 ^ 31 ∧
    (md_getgeo (some dev0.md) hdgeo_blank).1 = 0 ∧
    (md_getgeo (some dev0.md) hdgeo_blank).2.heads = 4 ∧
    (md_getgeo (some dev0.md) hdgeo_blank).2.sectors = 16 ∧
    (md_getgeo (some dev0.md) hdgeo_blank).2.cylinders = 256 :=
  ⟨by decide, by decide,
    (md_getgeo_formula dev0.md hdgeo_blank (by decide)).1,
    (md_getgeo_formula dev0.md hdgeo_blank (by decide)).2.1,
    (md_getgeo_formula dev0.md hdgeo_blank (by decide)).2.2.1,
    (md_getgeo_formula dev0.md hdgeo_blank (by decide)).2.2.2.1⟩

/-! ## Reads (C9) -/

/-- C9: for every request of direction READ or READA that lies inside the device
(`bi_sector * 512 + bi_size ≤ MD_MAX_SIZE`, `bi_size` being the sum of the segment
lengths), `fool_make_request` calls `bio_endio` once with 0, leaves the disk memory
as it was, keeps offset and length of every segment, and fills the segments in
sequence order so that their concatenated bytes are the disk bytes from
`bi_sector * 512` on, `bi_size` of them; READA and READ give the same outcome. -/
theorem read_request_semantics (st : module_state) (b : bio)
    (hrw : bio_rw b = READ ∨ bio_rw b = READA)
    (hsz : b.bi_size = seg_total (bio_segments b))
    (hin : b.bi_sector * 512 + b.bi_size ≤ MD_MAX_SIZE st)
    (hcap : MD_MAX_SIZE st < U64) :
    (fool_make_request st b).endio = [0] ∧
    (fool_make_request st b).data = st.md.data ∧
    bio_bytes (fool_make_request st b).io_vec =
      mem_bytes st.md.data (b.bi_sector * 512) b.bi_size ∧
    (fool_make_request st b).io_vec.map (fun bv => (bv.bv_offset, bv.bv_len)) =
      (bio_segments b).map (fun bv => (bv.bv_offset, bv.bv_len)) ∧
    fool_make_request st { b with bi_rw := READA } =
      fool_make_request st { b with bi_rw := READ } := by
  have hbad := bad_request_false_of_in_range st b hin
  have hcur := cursor_of_in_range st b hin hcap
  obtain ⟨r1, r2, r3, r4⟩ := fool_make_request_read st b hrw
  rw [hcur, ← hsz] at r3
  rw [hbad] at r2
  refine ⟨r2, r1, r3, r4, ?_⟩
  · have e1 : bio_rw { b with bi_rw := READA } = READA := rfl
    have e2 : bio_rw { b with bi_rw := READ } = READ := rfl
    unfold fool_make_request
    rw [e1, e2]
    simp only [segment_loop_reada]
    rfl

/-- Witness of C9: a 1,024-byte read at sector 1 into two segments, on a device
whose bytes from offset 512 on are 3, 4, 5, ...  Before the call the segments start
with the bytes 0 and 255; after it the first segment holds the disk bytes from 512
on (first 3, last 4) and the second those from 1,024 on (first 5, last 6). -/
theorem read_request_semantics_witness :
    (bio_rw bio_read_two_segments = READ ∨ bio_rw bio_read_two_segments = READA) ∧
    bio_read_two_segments.bi_size = seg_total (bio_segments bio_read_two_segments) ∧
    bio_read_two_segments.bi_sector * 512 + bio_read_two_segments.bi_size ≤
      MD_MAX_SIZE dev_count ∧
    MD_MAX_SIZE dev_count < U64 ∧
    mem_bytes dev_count.md.data 510 5 = [0, 0, 3, 4, 5] ∧
    mem_bytes dev_count.md.data 1023 3 = [4, 5, 6] ∧
    (bio_segments bio_read_two_segments).map (fun bv => bv.bv_page bv.bv_offset) = [0, 255] ∧
    (fool_make_request dev_count bio_read_two_segments).io_vec.map
      (fun bv => (bv.bv_page bv.bv_offset, bv.bv_page (bv.bv_offset + 511))) =
      [(3, 4), (5, 6)] ∧
    ((fool_make_request dev_count bio_read_two_segments).endio = [0] ∧
    (fool_make_request dev_count bio_read_two_segments).data = dev_count.md.data ∧
    bio_bytes (fool_make_request dev_count bio_read_two_segments).io_vec =
      mem_bytes dev_count.md.data (bio_read_two_segments.bi_sector * 512)
        bio_read_two_segments.bi_size ∧
    (fool_make_request dev_count bio_read_two_segments).io_vec.map
      (fun bv => (bv.bv_offset, bv.bv_len)) =
      (bio_segments bio_read_two_segments).map (fun bv => (bv.bv_offset, bv.bv_len)) ∧
    fool_make_request dev_count { bio_read_two_segments with bi_rw := READA } =
      fool_make_request dev_count { bio_read_two_segments with bi_rw := READ }) :=
  ⟨by decide, by decide, by decide, by decide, by decide, by decide, by decide, by decide,
    read_request_semantics dev_count bio_read_two_segments (by decide) (by decide) (by decide)
      (by decide)⟩

/-! ## Write, then read (C2) -/

/-- C2: a WRITE request that lies inside the device followed by a READ (or READA)
request of the same sector and the same size: both are completed once with 0, and
the bytes found in the segments of the read, in sequence order, are exactly the
bytes the segments of the write carried. -/
theorem write_read_round_trip (st : module_state) (wb rb : bio)
    (hw : bio_rw wb = WRITE)
    (hr : bio_rw rb = READ ∨ bio_rw rb = READA)
    (hsec : rb.bi_sector = wb.bi_sector)
    (hwsz : wb.bi_size = seg_total (bio_segments wb))
    (hrsz : rb.bi_size = seg_total (bio_segments rb))
    (hlen : rb.bi_size = wb.bi_size)
    (hin : wb.bi_sector * 512 + wb.bi_size ≤ MD_MAX_SIZE st) :
    (fool_make_request st wb).endio = [0] ∧
    (fool_make_request (after_request st (fool_make_request st wb)) rb).endio = [0] ∧
    bio_bytes (fool_make_request (after_request st (fool_make_request st wb)) rb).io_vec =
      bio_bytes (bio_segments wb) := by
  have hbadw := bad_request_false_of_in_range st wb hin
  have hbadr : bad_request (after_request st (fool_make_request st wb)) rb = false := by
    apply bad_request_false_of_in_range
    rw [hsec, hlen]
    exact hin
  obtain ⟨w1, _, w3⟩ := fool_make_request_write st wb hw
  obtain ⟨_, r2, r3, _⟩ :=
    fool_make_request_read (after_request st (fool_make_request st wb)) rb hr
  rw [hbadw] at w3
  rw [hbadr] at r2
  refine ⟨w3, r2, ?_⟩
  rw [r3]
  show mem_bytes (fool_make_request st wb).data _ _ = _
  rw [w1, hsec, ← hrsz, hlen, hwsz, mem_bytes_memcpy, mem_bytes_bio_byte]

/-- Witness of C2: capacity 8,388,608, 512 bytes written at sector 0 and read back. -/
theorem write_read_round_trip_witness :
    MD_MAX_SIZE dev0 = 8388608 ∧
    bio_rw bio_write_sector0 = WRITE ∧
    bio_rw bio_read_sector0 = READ ∧
    bio_read_sector0.bi_sector = bio_write_sector0.bi_sector ∧
    bio_write_sector0.bi_size = seg_total (bio_segments bio_write_sector0) ∧
    bio_read_sector0.bi_size = seg_total (bio_segments bio_read_sector0) ∧
    bio_read_sector0.bi_size = bio_write_sector0.bi_size ∧
    bio_write_sector0.bi_sector * 512 + bio_write_sector0.bi_size ≤ MD_MAX_SIZE dev0 ∧
    (fool_make_request dev0 bio_write_sector0).endio = [0] ∧
    (fool_make_request (after_request dev0 (fool_make_request dev0 bio_write_sector0))
      bio_read_sector0).endio = [0] ∧
    bio_bytes (fool_make_request (after_request dev0 (fool_make_request dev0 bio_write_sector0))
      bio_read_sector0).io_vec = bio_bytes (bio_segments bio_write_sector0) :=
  ⟨by decide, by decide, by decide, by decide, by decide, by decide, by decide, by decide,
    write_read_round_trip dev0 bio_write_sector0 bio_read_sector0 (by decide) (by decide)
      (by decide) (by decide) (by decide) (by decide) (by decide)⟩

/-! ## Segment concatenation (C3) -/

theorem memcpy_single_segment (data : Nat → Nat) (c : Nat) (segs : List bio_vec) :
    memcpy data c (bio_byte [single_segment segs]) 0 (seg_total [single_segment segs]) =
      memcpy data c (bio_byte segs) 0 (seg_total segs) := by
  funext a
  simp only [memcpy, bio_byte, seg_total, single_segment, Nat.add_zero]
  by_cases h : c ≤ a ∧ a < c + seg_total segs
  · have h1 : a - c < seg_total segs := by omega
    simp only [h, h1, and_self, if_true, Nat.zero_add]
  · simp only [h, if_false]

/-- C3: a WRITE request that lies inside the device, with any list of segments,
leaves the same disk memory as the request that carries the concatenated bytes in
one segment at the same sector; the bytes land from `bi_sector * 512` on in
sequence order, each segment at `bi_sector * 512` plus the lengths of the segments
before it (for `[s1, s2]`: `s1` at `bi_sector * 512`, `s2` right behind `s1`);
nothing outside the written range changes and the request is completed with 0. -/
theorem write_segments_concatenate (st : module_state) (b : bio)
    (hw : bio_rw b = WRITE)
    (hsz : b.bi_size = seg_total (bio_segments b))
    (hin : b.bi_sector * 512 + b.bi_size ≤ MD_MAX_SIZE st)
    (hcap : MD_MAX_SIZE st < U64) :
    (fool_make_request st b).data = (fool_make_request st (as_single_segment b)).data ∧
    mem_bytes (fool_make_request st b).data (b.bi_sector * 512) b.bi_size =
      bio_bytes (bio_segments b) ∧
    (∀ pre s post, bio_segments b = pre ++ s :: post →
      mem_bytes (fool_make_request st b).data (b.bi_sector * 512 + seg_total pre) s.bv_len =
        seg_bytes s) ∧
    (∀ a, a < b.bi_sector * 512 ∨ b.bi_sector * 512 + b.bi_size ≤ a →
      (fool_make_request st b).data a = st.md.data a) ∧
    (fool_make_request st b).endio = [0] := by
  have hbad := bad_request_false_of_in_range st b hin
  have hcur := cursor_of_in_range st b hin hcap
  obtain ⟨w1, _, w3⟩ := fool_make_request_write st b hw
  rw [hcur] at w1
  rw [hbad] at w3
  refine ⟨?_, ?_, ?_, ?_, w3⟩
  · have hw1 : bio_rw (as_single_segment b) = WRITE := hw
    obtain ⟨v1, _, _⟩ := fool_make_request_write st _ hw1
    rw [w1, v1]
    show _ = memcpy st.md.data ((b.bi_sector <<< 9) % U64)
      (bio_byte [single_segment (bio_segments b)]) 0 (seg_total [single_segment (bio_segments b)])
    rw [memcpy_single_segment, hcur]
  · rw [w1, hsz, mem_bytes_memcpy, mem_bytes_bio_byte]
  · intro pre s post hsplit
    rw [w1]
    apply mem_bytes_congr
    intro k hk
    have htot : seg_total (bio_segments b) = seg_total pre + (s.bv_len + seg_total post) := by
      rw [hsplit, seg_total_append, seg_total]
    have h1 : b.bi_sector * 512 ≤ b.bi_sector * 512 + seg_total pre + k ∧
        b.bi_sector * 512 + seg_total pre + k <
          b.bi_sector * 512 + seg_total (bio_segments b) := by omega
    have h2 : 0 + (b.bi_sector * 512 + seg_total pre + k - b.bi_sector * 512) =
        seg_total pre + k := by omega
    simp only [memcpy, h1, and_self, if_true, h2]
    rw [hsplit, bio_byte_append]
    simp only [bio_byte, hk, if_true]
  · intro a ha
    rw [w1]
    apply memcpy_outside
    rw [← hsz]
    exact ha

/-- Witness of C3: a two-segment write at sector 2 of the 8,388,608-byte device. -/
theorem write_segments_concatenate_witness :
    bio_rw bio_write_two_segments = WRITE ∧
    bio_write_two_segments.bi_size = seg_total (bio_segments bio_write_two_segments) ∧
    bio_write_two_segments.bi_sector * 512 + bio_write_two_segments.bi_size ≤
      MD_MAX_SIZE dev0 ∧
    MD_MAX_SIZE dev0 < U64 ∧
    (fool_make_request dev0 bio_write_two_segments).data =
      (fool_make_request dev0 (as_single_segment bio_write_two_segments)).data ∧
    mem_bytes (fool_make_request dev0 bio_write_two_segments).data
        (bio_write_two_segments.bi_sector * 512) bio_write_two_segments.bi_size =
      bio_bytes (bio_segments bio_write_two_segments) ∧
    (∀ pre s post, bio_segments bio_write_two_segments = pre ++ s :: post →
      mem_bytes (fool_make_request dev0 bio_write_two_segments).data
          (bio_write_two_segments.bi_sector * 512 + seg_total pre) s.bv_len =
        seg_bytes s) ∧
    (∀ a, a < bio_write_two_segments.bi_sector * 512 ∨
        bio_write_two_segments.bi_sector * 512 + bio_write_two_segments.bi_size ≤ a →
      (fool_make_request dev0 bio_write_two_segments).data a = dev0.md.data a) ∧
    (fool_make_request dev0 bio_write_two_segments).endio = [0] :=
  ⟨by decide, by decide, by decide, by decide,
    write_segments_concatenate dev0 bio_write_two_segments (by decide) (by decide) (by decide)
      (by decide)⟩

/-! ## Unsupported direction (C5) -/

/-- C5, as stated, fails: a request of unsupported direction with an empty segment
list never reaches the `switch`, and is completed with 0 (success), not `-EIO`. -/
theorem unsupported_empty_request_succeeds :
    (bio_rw bio_unsupported_empty ≠ READ ∧ bio_rw bio_unsupported_empty ≠ READA ∧
      bio_rw bio_unsupported_empty ≠ WRITE) ∧
    (bio_segments bio_unsupported_empty).length = 0 ∧
    bio_unsupported_empty.bi_sector * 512 + bio_unsupported_empty.bi_size ≤ MD_MAX_SIZE dev0 ∧
    (fool_make_request dev0 bio_unsupported_empty).endio = [0] := by
  decide

/-- C5, amended: a request whose direction is neither READ, READA nor WRITE and
whose segment list is not empty (any sector, any size): the disk memory and the
segments are left as they were, no copy is made, `bio_endio` is called, every
status passed to it is `-EIO`, and for a request inside the device it is called
exactly once. -/
theorem unsupported_direction_rejected (st : module_state) (b : bio)
    (h1 : bio_rw b ≠ READ) (h2 : bio_rw b ≠ READA) (h3 : bio_rw b ≠ WRITE)
    (hne : bio_segments b ≠ []) :
    (fool_make_request st b).data = st.md.data ∧
    (fool_make_request st b).io_vec = bio_segments b ∧
    (fool_make_request st b).accesses = [] ∧
    (fool_make_request st b).endio ≠ [] ∧
    (∀ e ∈ (fool_make_request st b).endio, e = - EIO) ∧
    (b.bi_sector * 512 + b.bi_size ≤ MD_MAX_SIZE st →
      (fool_make_request st b).endio = [- EIO]) := by
  obtain ⟨d1, d2, d3, d4⟩ := segment_loop_default (bio_rw b) h1 h2 h3 (bio_segments b)
    ((b.bi_sector <<< 9) % U64) st.md.data
  have hemp : (bio_segments b).isEmpty = false := by
    cases hs : bio_segments b with
    | nil => exact absurd hs hne
    | cons bv rest => rfl
  rw [hemp] at d4
  have he : (fool_make_request st b).endio =
      (if bad_request st b then [- EIO] else []) ++ [- EIO] := by
    simp only [fool_make_request, d4]
    rfl
  refine ⟨?_, ?_, ?_, ?_, ?_, ?_⟩
  · simp only [fool_make_request, d1]
  · simp only [fool_make_request, d2]
  · simp only [fool_make_request, d3]
  · rw [he]
    simp
  · rw [he]
    intro e hmem
    cases hb : bad_request st b <;> simp [hb] at hmem <;> exact hmem
  · intro hin
    rw [he, bad_request_false_of_in_range st b hin]
    rfl

/-- Witness of C5 (amended): direction 3 with one 512-byte segment at sector 0. -/
theorem unsupported_direction_rejected_witness :
    (bio_rw bio_unsupported_one ≠ READ ∧ bio_rw bio_unsupported_one ≠ READA ∧
      bio_rw bio_unsupported_one ≠ WRITE) ∧
    (bio_segments bio_unsupported_one).length = 1 ∧
    (fool_make_request dev0 bio_unsupported_one).data = dev0.md.data ∧
    (fool_make_request dev0 bio_unsupported_one).io_vec = bio_segments bio_unsupported_one ∧
    (fool_make_request dev0 bio_unsupported_one).accesses = [] ∧
    (fool_make_request dev0 bio_unsupported_one).endio ≠ [] ∧
    (∀ e ∈ (fool_make_request dev0 bio_unsupported_one).endio, e = - EIO) ∧
    (bio_unsupported_one.bi_sector * 512 + bio_unsupported_one.bi_size ≤ MD_MAX_SIZE dev0 →
      (fool_make_request dev0 bio_unsupported_one).endio = [- EIO]) :=
  ⟨by decide, by decide,
    unsupported_direction_rejected dev0 bio_unsupported_one (by decide) (by decide) (by decide)
      (by simp [bio_segments, bio_unsupported_one])⟩

/-! ## A device of capacity zero (C8) -/

/-- On a device of capacity 0 the empty request at sector 0 passes the test of
line 70 (0 is not greater than 0) and is completed with 0. -/
theorem zero_capacity_empty_request_passes :
    MD_MAX_SIZE dev_zero = 0 ∧
    bio_empty_read.bi_sector = 0 ∧ bio_empty_read.bi_size = 0 ∧
    (bio_segments bio_empty_read).length = 0 ∧
    bad_request dev_zero bio_empty_read = false ∧
    (fool_make_request dev_zero bio_empty_read).endio = [0] := by
  decide

/-- C8 at a failing input: on the device of capacity 0 the 512-byte read at sector 0
fails the test of line 70 and gets `-EIO`, but line 73 is not followed by a
`return`: 512 bytes are copied from offset 0 of a Store that holds no byte, the
segment is filled, and `bio_endio` is called a second time with 0. -/
theorem zero_capacity_request_not_stopped :
    MD_MAX_SIZE dev_zero = 0 ∧
    dev_zero.md.size = 0 ∧
    bad_request dev_zero bio_read_one = true ∧
    (fool_make_request dev_zero bio_read_one).endio = [- EIO, 0] ∧
    (fool_make_request dev_zero bio_read_one).accesses = [(0, 512)] := by
  decide

/-! ## Requests past the end of the device (C1, C6, C7) -/

/-- C1 at a failing input: the 1,024-byte write at sector 16,383 is out of range
(`16383 * 512 + 1024 > 8388608`) and gets `-EIO`, but line 73 is not followed by a
`return`: the copy is made all the same, byte 8,388,096 of the Store turns from 0
into 255, and `bio_endio` is called a second time with 0. -/
theorem out_of_range_write_changes_store :
    bio_cross_end_write.bi_sector * 512 + bio_cross_end_write.bi_size > MD_MAX_SIZE dev0 ∧
    bad_request dev0 bio_cross_end_write = true ∧
    (fool_make_request dev0 bio_cross_end_write).endio = [- EIO, 0] ∧
    8388096 < dev0.md.size ∧
    dev0.md.data 8388096 = 0 ∧
    (fool_make_request dev0 bio_cross_end_write).data 8388096 = 255 := by
  decide

/-- C6 at a failing input: the out-of-range 1,024-byte read at sector 16,383 has
`bio_endio` called twice, first with `-EIO` (line 73) and then with 0 (line 117). -/
theorem out_of_range_request_completed_twice :
    bio_cross_end_read.bi_sector * 512 + bio_cross_end_read.bi_size > MD_MAX_SIZE dev0 ∧
    (fool_make_request dev0 bio_cross_end_read).endio = [- EIO, 0] ∧
    (fool_make_request dev0 bio_cross_end_read).endio.length = 2 := by
  decide

/-- C7 at a failing input: for the 1,024-byte write at sector 16,383, whose size is
the sum of its segment lengths, the one copy made starts at offset 8,388,096 and is
1,024 bytes long, so it ends 512 bytes past the 8,388,608 bytes of the Store; the
byte right behind the Store turns from 0 into 255. -/
theorem out_of_range_copy_runs_past_store :
    bio_cross_end_write.bi_size = seg_total (bio_segments bio_cross_end_write) ∧
    (fool_make_request dev0 bio_cross_end_write).accesses = [(8388096, 1024)] ∧
    8388096 + 1024 > dev0.md.size ∧
    MD_MAX_SIZE dev0 = dev0.md.size ∧
    dev0.md.data 8388608 = 0 ∧
    (fool_make_request dev0 bio_cross_end_write).data 8388608 = 255 := by
  decide

/-! ## The range test in 64-bit arithmetic (C10) -/

/-- C10 at a failing input: for sector 2^55 (a 64-bit value) and 512 bytes the
exact sum `2^55 * 512 + 512` exceeds the capacity, yet `bi_sector << 9` wraps to 0,
the test of line 70 is false, the request is completed with 0 and its 512 bytes
land at offset 0 of the Store. -/
theorem range_test_wraps_at_sector_2_pow_55 :
    bio_wrap_write.bi_sector < 2 ^ 64 ∧ bio_wrap_write.bi_size < 2 ^ 32 ∧
    bio_wrap_write.bi_sector * 512 + bio_wrap_write.bi_size > MD_MAX_SIZE dev0 ∧
    bad_request dev0 bio_wrap_write = false ∧
    (fool_make_request dev0 bio_wrap_write).endio = [0] ∧
    (fool_make_request dev0 bio_wrap_write).accesses = [(0, 512)] ∧
    dev0.md.data 0 = 0 ∧
    (fool_make_request dev0 bio_wrap_write).data 0 = 255 := by
  decide

end Memdisk
